import Mathlib

/-!
Shallow embedding of the Start Menu Shortcut Creator (`main.py`).

The program is a small GUI utility that creates a Start Menu shortcut for a
dropped executable, optionally patched to run elevated.  The embedding below
models the non-UI logic faithfully:

* Python string helpers (`str.strip`, `str.replace`, `str.rsplit`,
  `str.lower`, slicing) as functions on `String` via `List Char`;
* the relevant fragment of `ntpath` (`splitdrive`, `split`/`dirname`, `join`,
  `splitext`) following CPython 3.11's implementation;
* the filesystem as a map from path to file content, where a file's content
  is its (opaque, OS-produced) byte sequence together with the decoded
  `TargetPath` / `WorkingDirectory` fields of a link file;
* the shortcut-creation flow (`process_dropped_file`,
  `prompt_shortcut_options`, `create_shortcut`, `check_existing_shortcut`,
  `get_programs_folder`, `get_shortcut_path`, `create_windows_shortcut`) with
  the UI dialogs replaced by explicit input parameters and the external
  failure modes (COM save error, process-launch error, file I/O errors in the
  PowerShell patch script) made explicit in an `Env` record.
-/

namespace ShortcutCreator

/-- Python `str` whitespace relevant here (ASCII subset of `str.strip()`'s
whitespace; the inputs in this program are ASCII). -/
def isPySpace (c : Char) : Bool :=
  c == ' ' || c == '\t' || c == '\n' || c == '\r' || c == '\x0b' || c == '\x0c'

/-- Python `s.strip()`: remove leading and trailing whitespace. -/
def pyStrip (s : String) : String :=
  (((s.toList.dropWhile isPySpace).reverse.dropWhile isPySpace).reverse).asString

/-- Python `s.replace(old, new)` for single-character `old`/`new`. -/
def pyReplaceChar (old new : Char) (s : String) : String :=
  (s.toList.map (fun c => if c = old then new else c)).asString

/-- Python `s.lower()` (ASCII; the only use is the case-insensitive `.lnk`
suffix test, whose characters are ASCII). -/
def pyLower (s : String) : String :=
  (s.toList.map Char.toLower).asString

/-- Python `s.endswith(suffix)`. -/
def pyEndsWith (s suffix : String) : Bool :=
  suffix.toList.isSuffixOf s.toList

/-- Python slice `s[:-4]` (empty when `len(s) <= 4`... precisely, it keeps the
first `len(s) - 4` characters, so the empty string when `len(s) ≤ 4`). -/
def pySliceToNeg4 (s : String) : String :=
  (s.toList.take (s.toList.length - 4)).asString

/-- Drop elements up to and including the first occurrence of `c`; the whole
list scanned without finding `c` yields `[]`.  Helper for `rsplit(c, 1)`. -/
def dropUntilChar (c : Char) : List Char → List Char
  | [] => []
  | x :: xs => if x = c then xs else dropUntilChar c xs

/-- Python `s.rsplit(c, 1)[0]` for a single-character separator `c`: the part
of `s` before the last occurrence of `c`, or all of `s` when `c` does not
occur. -/
def rsplitOnceHead (c : Char) (s : String) : String :=
  if c ∈ s.toList then ((dropUntilChar c s.toList.reverse).reverse).asString else s

/-- Python `s.rfind(c)` for a single character: last index, or `-1`. -/
def pyRfindChar (c : Char) (l : List Char) : Int :=
  match l.reverse.findIdx? (· == c) with
  | none => -1
  | some j => ((l.length - 1 - j : Nat) : Int)

/-- `ntpath.splitext` (via `genericpath._splitext` with `sep = '\\'`,
`altsep = '/'`, `extsep = '.'`, CPython 3.11): split off the extension at the
last dot of the basename, unless every character of the basename before that
dot is itself a dot. -/
def ntSplitext (p : String) : String × String :=
  let l := p.toList
  let sepIndex := max (pyRfindChar '\\' l) (pyRfindChar '/' l)
  let dotIndex := pyRfindChar '.' l
  if sepIndex < dotIndex then
    let startIdx := (sepIndex + 1).toNat
    let base := (l.drop startIdx).take (dotIndex.toNat - startIdx)
    if base.any (fun c => c != '.') then
      ((l.take dotIndex.toNat).asString, (l.drop dotIndex.toNat).asString)
    else (p, "")
  else (p, "")

/-- `clean_default_name`, lines 233-241 of `main.py`, split into its two
stages: extension strip plus separator replacement ... -/
def preprocessName (filename : String) : String :=
  pyReplaceChar '.' ' ' (pyReplaceChar '-' ' ' (pyReplaceChar '_' ' ' (ntSplitext filename).1))

/-- `clean_default_name(filename)` (`main.py` lines 233-241):
`name = os.path.splitext(filename)[0]`; replace `'_'`, `'-'`, `'.'` by `' '`
in turn; `name.rsplit('v', 1)[0].strip()`. -/
def clean_default_name (filename : String) : String :=
  pyStrip (rsplitOnceHead 'v' (preprocessName filename))

/-! ### The `ntpath` fragment used by the flow -/

/-- A path separator on Windows (`sep = '\\'`, `altsep = '/'`). -/
def isSepChar (c : Char) : Bool := c == '\\' || c == '/'

/-- Python `s.find(c, start)` for a single character: first index `≥ start`,
or `none` for `-1`. -/
def pyFindCharFrom (c : Char) (start : Nat) (l : List Char) : Option Nat :=
  match (l.drop start).findIdx? (· == c) with
  | none => none
  | some j => some (start + j)

/-- `ntpath.splitdrive` (CPython 3.11): split a drive-letter prefix `"X:"` or
a UNC prefix `"\\\\server\\share"` from the rest of the path. -/
def ntSplitdrive (p : String) : String × String :=
  let l := p.toList
  if 2 ≤ l.length then
    let n := l.map (fun c => if c = '/' then '\\' else c)
    if n.take 2 = ['\\', '\\'] ∧ (n.drop 2).head? ≠ some '\\' then
      match pyFindCharFrom '\\' 2 n with
      | none => ("", p)
      | some index =>
        match pyFindCharFrom '\\' (index + 1) n with
        | none => (p, "")
        | some index2 =>
          if index2 = index + 1 then ("", p)
          else ((l.take index2).asString, (l.drop index2).asString)
    else if (n.drop 1).head? = some ':' then
      ((l.take 2).asString, (l.drop 2).asString)
    else ("", p)
  else ("", p)

/-- `ntpath.split` (CPython 3.11): split off the drive, cut the rest at the
last separator, and strip trailing separators from the head unless the head
is all separators. -/
def ntSplit (p : String) : String × String :=
  let d := (ntSplitdrive p).1
  let r := (ntSplitdrive p).2.toList
  let tailLen := (r.reverse.takeWhile (fun c => !(isSepChar c))).length
  let i := r.length - tailLen
  let head := r.take i
  let tail := r.drop i
  let headStripped := (head.reverse.dropWhile isSepChar).reverse
  let head2 := if headStripped.isEmpty then head else headStripped
  (d ++ head2.asString, tail.asString)

/-- `os.path.dirname` on Windows (`ntpath.dirname`): the head of `ntSplit`. -/
def ntDirname (p : String) : String := (ntSplit p).1

/-- `os.path.basename` on Windows (`ntpath.basename`): the tail of `ntSplit`. -/
def ntBasename (p : String) : String := (ntSplit p).2

/-- Appending one path component relative to an accumulated path (the
`result_path`-relative case inside `ntpath.join`'s loop): insert a `'\\'`
when the accumulated path is nonempty and does not already end in a
separator. -/
def ntJoinRel (rp pp : String) : String :=
  (if rp ≠ "" ∧ ¬ (rp.toList.getLast?.elim false isSepChar) then rp ++ "\\" else rp) ++ pp

/-- `ntpath.join` (CPython 3.11) for two arguments: absolute or
other-drive second components replace the first path, otherwise the second
component is appended relative to the first; finally a separator is inserted
between a UNC drive and a non-absolute path. -/
def ntJoin2 (a b : String) : String :=
  let rd := (ntSplitdrive a).1
  let rp := (ntSplitdrive a).2
  let pd := (ntSplitdrive b).1
  let pp := (ntSplitdrive b).2
  let step :=
    if pp.toList.head?.elim false isSepChar then
      ((if pd ≠ "" ∨ rd = "" then pd else rd), pp)
    else if pd ≠ "" ∧ pd ≠ rd then
      if pyLower pd ≠ pyLower rd then (pd, pp)
      else (pd, ntJoinRel rp pp)
    else (rd, ntJoinRel rp pp)
  if step.2 ≠ "" ∧ ¬ (step.2.toList.head?.elim false isSepChar) ∧ step.1 ≠ ""
      ∧ ¬ (step.1.toList.getLast?.elim false (· == ':')) then
    step.1 ++ "\\" ++ step.2
  else step.1 ++ step.2

/-! ### Data model: files, filesystem, environment -/

/-- On-disk content of a file.  For a link file, `bytes` is the raw byte
sequence the OS shortcut API produced (opaque to this program except for the
flags byte at offset `0x15`, which lies in the link-file header), while
`targetPath` and `workingDirectory` are the decoded field values carried
alongside: the byte patch at header offset `0x15` does not touch the regions
encoding those two fields, so a byte-level patch of offset `0x15` is modelled
as acting on `bytes` and preserving the decoded fields.  For a file that is
not a link file the two field components are irrelevant. -/
structure LnkFile where
  bytes : List Nat
  targetPath : String
  workingDirectory : String
deriving DecidableEq, Repr

/-- The filesystem: which file content, if any, sits at each path. -/
abbrev FS := String → Option LnkFile

/-- The empty filesystem. -/
def fsEmpty : FS := fun _ => none

/-- Write (create or overwrite) the file at `p`. -/
def fsWrite (fs : FS) (p : String) (f : LnkFile) : FS :=
  fun q => if q = p then some f else fs q

/-- Delete the file at `p` (`Remove-Item`). -/
def fsRemove (fs : FS) (p : String) : FS :=
  fun q => if q = p then none else fs q

/-- Environment of a single run: the byte sequence the OS shortcut API writes
when the COM object is saved, and the externally caused failure modes of the
run (COM save raising, the `powershell` child process failing to start, and
I/O errors inside the patch script). -/
structure Env where
  osBytes : List Nat
  comMsg : String
  saveFails : Bool
  launchFails : Bool
  readFails : Bool
  writeFails : Bool

/-- All external steps of the run succeed. -/
def Env.allOk (env : Env) : Prop :=
  env.saveFails = false ∧ env.launchFails = false ∧
  env.readFails = false ∧ env.writeFails = false

instance (env : Env) : Decidable env.allOk := by
  unfold Env.allOk; infer_instance

/-- Python exceptions that the flow can raise, by type:
`pywintypes.com_error` from the COM shortcut API, `OSError` from
`subprocess.run` when the child process cannot be started, and
`subprocess.CalledProcessError` raised by `subprocess.run(..., check=True)`
on a non-zero exit status. -/
inductive PyExn where
  | comError (msg : String)
  | osError (msg : String)
  | calledProcessError (exitCode : Nat)
deriving DecidableEq, Repr

deriving instance DecidableEq for Except

/-- `str(e)` for the exceptions above, as used by `show_error`. -/
def pyExnMessage : PyExn → String
  | .comError m => m
  | .osError m => m
  | .calledProcessError c => "Command returned non-zero exit status " ++ toString c

/-! ### The shortcut-creation flow -/

/-- Lines 287-290 of `main.py`: the COM shortcut object after
`shortcut.Targetpath = exe_path` and
`shortcut.WorkingDirectory = os.path.dirname(exe_path)`, as the link-file
content the OS writes when the object is saved (its raw bytes are chosen by
the OS, i.e. by the environment). -/
def mkLnkFile (env : Env) (exe_path : String) : LnkFile :=
  { bytes := env.osBytes
    targetPath := exe_path
    workingDirectory := ntDirname exe_path }

/-- The byte patch of the PowerShell script, line 300 of `main.py`:
`$bytes[0x15] = $bytes[0x15] -bor 0x20`. -/
def orAt15 (bs : List Nat) : List Nat :=
  bs.set 0x15 (bs.getD 0x15 0 ||| 0x20)

/-- The PowerShell patch script (lines 298-303 of `main.py`), statement by
statement on the filesystem:
`$bytes = [System.IO.File]::ReadAllBytes(pre)`;
`$bytes[0x15] = $bytes[0x15] -bor 0x20`;
`[System.IO.File]::WriteAllBytes(final, $bytes)`;
`Remove-Item pre`.
Result: the filesystem afterwards and the process exit status.  A failing
statement (read error, index `0x15` out of range, write error) is modelled
as aborting the command with exit status `1`, the remaining statements not
executed. -/
def runPatchScript (env : Env) (fs : FS) (pre final : String) : FS × Nat :=
  if env.readFails then (fs, 1)
  else
    match fs pre with
    | none => (fs, 1)
    | some f =>
      if f.bytes.length ≤ 0x15 then (fs, 1)
      else
        let patched : LnkFile := { f with bytes := orAt15 f.bytes }
        if env.writeFails then (fs, 1)
        else (fsRemove (fsWrite fs final patched) pre, 0)

/-- `create_windows_shortcut(exe_path, shortcut_path, run_as_admin)`
(`main.py` lines 285-308).  Builds the COM shortcut object with
`Targetpath`/`WorkingDirectory` set; without elevation it saves straight to
`shortcut_path`; with elevation it saves to
`shortcut_path_pre = shortcut_path[:-4] + "_admin.lnk"`, runs the PowerShell
patch script synchronously via `subprocess.run(..., check=True)`, and raises
`CalledProcessError` when the script exits non-zero.  The result is the
raised exception (if any) together with the filesystem afterwards. -/
def create_windows_shortcut (env : Env) (fs : FS) (exe_path shortcut_path : String)
    (run_as_admin : Bool) : Except PyExn Unit × FS :=
  let lnk := mkLnkFile env exe_path
  if run_as_admin then
    let shortcut_path_pre := pySliceToNeg4 shortcut_path ++ "_admin.lnk"
    if env.saveFails then (.error (.comError env.comMsg), fs)
    else
      let fs1 := fsWrite fs shortcut_path_pre lnk
      if env.launchFails then (.error (.osError "powershell not found"), fs1)
      else
        let run := runPatchScript env fs1 shortcut_path_pre shortcut_path
        if run.2 = 0 then (.ok (), run.1)
        else (.error (.calledProcessError run.2), run.1)
  else
    if env.saveFails then (.error (.comError env.comMsg), fs)
    else (.ok (), fsWrite fs shortcut_path lnk)

/-- `get_programs_folder()` (`main.py` lines 257-265):
`os.path.join(os.getenv('APPDATA'), 'Microsoft', 'Windows', 'Start Menu',
'Programs')`, with the `APPDATA` value a parameter. -/
def get_programs_folder (appData : String) : String :=
  ntJoin2 (ntJoin2 (ntJoin2 (ntJoin2 appData "Microsoft") "Windows") "Start Menu") "Programs"

/-- `get_shortcut_path(programs_folder, shortcut_name)` (`main.py` lines
267-271): append `".lnk"` unless the name already ends in it
case-insensitively, and join with the folder. -/
def get_shortcut_path (programs_folder shortcut_name : String) : String :=
  let name := if pyEndsWith (pyLower shortcut_name) ".lnk" then shortcut_name
              else shortcut_name ++ ".lnk"
  ntJoin2 programs_folder name

/-- `check_existing_shortcut(shortcut_path)` (`main.py` lines 273-283): when
a file exists at the path, ask the user and report `True` exactly when they
answered `No`; with no existing file, `False` without asking.  The user's
answer is the parameter `userSaysNo`. -/
def check_existing_shortcut (fs : FS) (shortcut_path : String) (userSaysNo : Bool) : Bool :=
  if (fs shortcut_path).isSome then userSaysNo else false

/-- Result of `create_shortcut` as observable behaviour: it returned after
creating, returned early because the user declined the overwrite, or called
`show_error` with the given title and message. -/
inductive CreateResult where
  | created
  | overwriteDeclined
  | errorShown (title msg : String)
deriving DecidableEq, Repr

/-- `create_shortcut(exe_path, shortcut_name, run_as_admin)` (`main.py`
lines 243-255): compute the destination path, return early when the user
declines to overwrite an existing file, otherwise run
`create_windows_shortcut`; any exception `e` is caught and surfaced as
`show_error("Shortcut Creation Failed", str(e))`. -/
def create_shortcut (env : Env) (fs : FS) (appData exe_path shortcut_name : String)
    (run_as_admin userSaysNo : Bool) : CreateResult × FS :=
  let programs_folder := get_programs_folder appData
  let shortcut_path := get_shortcut_path programs_folder shortcut_name
  if check_existing_shortcut fs shortcut_path userSaysNo then (.overwriteDeclined, fs)
  else
    let r := create_windows_shortcut env fs exe_path shortcut_path run_as_admin
    match r.1 with
    | .ok _ => (.created, r.2)
    | .error e => (.errorShown "Shortcut Creation Failed" (pyExnMessage e), r.2)

/-- The state of the `ShortcutNameDialog` when it is closed: whether `Create`
was clicked (`accept`), the raw text of the name field, and the state of the
`Run as administrator` checkbox. -/
structure DialogInput where
  accepted : Bool
  nameText : String
  adminChecked : Bool

/-- `ShortcutNameDialog.get_shortcut_name` (`main.py` lines 45-46):
`self.name_input.text().strip()`. -/
def get_shortcut_name (d : DialogInput) : String := pyStrip d.nameText

/-- Result of `prompt_shortcut_options`: either nothing happened (dialog
rejected, or the stripped name was empty), or `create_shortcut` ran with
result `r` and the drop-area label was set to `"Created: " ++ name`. -/
inductive PromptResult where
  | idle
  | ran (r : CreateResult) (labelText : String)
deriving DecidableEq, Repr

/-- `prompt_shortcut_options(exe_path)` (`main.py` lines 218-231): show the
dialog (its outcome is the parameter `d`; its initial text is
`clean_default_name(os.path.basename(exe_path))`, which does not constrain
the final text); when accepted with a non-empty stripped name, run
`create_shortcut` and set the drop-area text. -/
def prompt_shortcut_options (env : Env) (fs : FS) (appData exe_path : String)
    (d : DialogInput) (userSaysNo : Bool) : PromptResult × FS :=
  if d.accepted then
    let shortcut_name := get_shortcut_name d
    if shortcut_name ≠ "" then
      let r := create_shortcut env fs appData exe_path shortcut_name d.adminChecked userSaysNo
      (.ran r.1 ("Created: " ++ shortcut_name), r.2)
    else (.idle, fs)
  else (.idle, fs)

/-- Result of `process_dropped_file`: the early
`show_error("File not found", "The selected file doesn't exist.")` (the
spec's `NotFound` error), or the dialog flow ran. -/
inductive ProcessResult where
  | errorDialog (title msg : String)
  | handled (r : PromptResult)
deriving DecidableEq, Repr

/-- `process_dropped_file(exe_path)` (`main.py` lines 210-216): when no file
exists at `exe_path`, show the `File not found` error and stop; otherwise
run `prompt_shortcut_options`. -/
def process_dropped_file (env : Env) (fs : FS) (appData exe_path : String)
    (d : DialogInput) (userSaysNo : Bool) : ProcessResult × FS :=
  if (fs exe_path).isNone then
    (.errorDialog "File not found" "The selected file doesn't exist.", fs)
  else
    let r := prompt_shortcut_options env fs appData exe_path d userSaysNo
    (.handled r.1, r.2)

/-! ### Spec-side comparison definitions and claim-specific inputs -/

/-- The temporary path as claim C1 words it: the final path with `"_admin"`
inserted before the extension (the extension as computed by
`os.path.splitext`). -/
def claimTempPath (final : String) : String :=
  (ntSplitext final).1 ++ "_admin" ++ (ntSplitext final).2

/-- The name normalization as claim C5 words it: strip the extension, replace
`'_'`, `'-'`, `'.'` by spaces, and, when the result contains a lowercase
`'v'`, truncate at the FIRST occurrence of `'v'`, returning the stripped
prefix before it. -/
def defaultNameClaimC5 (filename : String) : String :=
  let name := preprocessName filename
  if 'v' ∈ name.toList then pyStrip (name.toList.takeWhile (fun c => c != 'v')).asString
  else name

/-- The exit status of the `powershell` patch process in an elevated run that
reaches the `subprocess.run` call: the script runs on the filesystem after
the shortcut was saved at the temporary path. -/
def patchExitCode (env : Env) (fs : FS) (exe_path shortcut_path : String) : Nat :=
  (runPatchScript env
    (fsWrite fs (pySliceToNeg4 shortcut_path ++ "_admin.lnk") (mkLnkFile env exe_path))
    (pySliceToNeg4 shortcut_path ++ "_admin.lnk") shortcut_path).2

/-- An environment in which every external step succeeds and the OS writes a
76-byte link file (the size of the fixed link-file header). -/
def envAllOk : Env :=
  { osBytes := List.replicate 76 0, comMsg := "", saveFails := false,
    launchFails := false, readFails := false, writeFails := false }

/-- An environment in which the `powershell` child process cannot be started
(`subprocess.run` raises `OSError`); everything else succeeds. -/
def envLaunchFails : Env := { envAllOk with launchFails := true }

/-- An environment in which `WriteAllBytes` to the final path fails inside
the patch script, so the script exits non-zero; everything else succeeds. -/
def envWriteFails : Env := { envAllOk with writeFails := true }

/-- A sample link file used as pre-existing on-disk content in witnesses. -/
def sampleFile : LnkFile :=
  { bytes := List.replicate 76 7, targetPath := "C:\\Old\\old.exe",
    workingDirectory := "C:\\Old" }

/-- The destination path of the claim C1 counterexample: user-typed shortcut
name `"A.LNK"` (which passes the case-insensitive `.lnk` suffix test
unchanged) under `APPDATA = "C:\\U"`. -/
def spUpperC1 : String := get_shortcut_path (get_programs_folder "C:\\U") "A.LNK"

/-- A filesystem with a file already present at the destination computed for
shortcut name `"App"` under `APPDATA = "C:\\U"`. -/
def fsExistingApp : FS :=
  fsWrite fsEmpty (get_shortcut_path (get_programs_folder "C:\\U") "App") sampleFile

/-- Dialog closed with `Create`, name `"Foo"`, checkbox off. -/
def dlgCreateFoo : DialogInput :=
  { accepted := true, nameText := "Foo", adminChecked := false }

/-- Dialog closed with `Create`, a whitespace-only name, checkbox on. -/
def dlgBlankName : DialogInput :=
  { accepted := true, nameText := "   ", adminChecked := true }

/-! ### Helper lemmas -/

theorem length_pySliceToNeg4 (s : String) : (pySliceToNeg4 s).length = s.length - 4 := by
  show (s.data.take (s.data.length - 4)).length = s.data.length - 4
  simp

theorem pre_ne_final (sp : String) : pySliceToNeg4 sp ++ "_admin.lnk" ≠ sp := by
  intro h
  have h1 : (pySliceToNeg4 sp ++ "_admin.lnk").length = sp.length := congrArg String.length h
  rw [String.length_append, length_pySliceToNeg4] at h1
  have h2 : ("_admin.lnk" : String).length = 10 := rfl
  omega

theorem getD_set_self (l : List Nat) (i v : Nat) (h : i < l.length) :
    (l.set i v).getD i 0 = v := by
  induction l generalizing i with
  | nil => simp at h
  | cons a t ih =>
    cases i with
    | zero => rfl
    | succ n => simpa using ih n (by simpa using h)

theorem testBit5_or_0x20 (x : Nat) : Nat.testBit (x ||| 0x20) 5 = true := by
  have h : Nat.testBit 0x20 5 = true := by decide
  simp [Nat.testBit_or, h]

/-- Central success lemma: in a run where every external step succeeds and
the OS-produced link file is longer than `0x15` bytes,
`create_windows_shortcut` returns without raising, leaves at
`shortcut_path` the OS-produced file (patched at byte `0x15` exactly when
elevation was requested), and leaves nothing at the temporary
`_admin`-suffixed path in the elevated case. -/
theorem cws_success (env : Env) (fs : FS) (exe sp : String) (admin : Bool)
    (hok : env.allOk) (hlen : 0x15 < env.osBytes.length) :
    (create_windows_shortcut env fs exe sp admin).1 = .ok () ∧
    (create_windows_shortcut env fs exe sp admin).2 sp =
      some (if admin then { mkLnkFile env exe with bytes := orAt15 env.osBytes }
            else mkLnkFile env exe) ∧
    (admin = true →
      (create_windows_shortcut env fs exe sp admin).2 (pySliceToNeg4 sp ++ "_admin.lnk")
        = none) := by
  obtain ⟨h1, h2, h3, h4⟩ := hok
  have hlen2 : ¬ (env.osBytes.length ≤ 0x15) := by omega
  cases admin with
  | false =>
    refine ⟨?_, ?_, ?_⟩ <;> simp [create_windows_shortcut, h1, fsWrite]
  | true =>
    have hne : sp ≠ pySliceToNeg4 sp ++ "_admin.lnk" := fun h => pre_ne_final sp h.symm
    refine ⟨?_, ?_, ?_⟩ <;>
      simp [create_windows_shortcut, h1, h2, runPatchScript, h3, h4, hlen2,
            fsWrite, fsRemove, hne, mkLnkFile]

theorem dropUntilChar_append (c : Char) (l r : List Char) (h : c ∉ l) :
    dropUntilChar c (l ++ c :: r) = r := by
  induction l with
  | nil => simp [dropUntilChar]
  | cons x xs ih =>
    have hx : ¬ (x = c) := fun e => h (by simp [e])
    simp only [List.cons_append, dropUntilChar, if_neg hx]
    exact ih (fun hm => h (List.mem_cons_of_mem _ hm))

/-- `s.rsplit(c, 1)[0]` at a decomposition of `s` around the last occurrence
of `c`. -/
theorem rsplitOnceHead_last (c : Char) (s : String) (A B : List Char)
    (hs : s.toList = A ++ c :: B) (hB : c ∉ B) :
    rsplitOnceHead c s = A.asString := by
  have hmem : c ∈ s.toList := by rw [hs]; simp
  have hrev : s.toList.reverse = B.reverse ++ c :: A.reverse := by
    rw [hs]; simp
  rw [rsplitOnceHead, if_pos hmem, hrev,
    dropUntilChar_append c B.reverse A.reverse (by simpa using hB), List.reverse_reverse]

/-! ### The claims -/

/-- C1, counterexample: the claim says the temporary path equals the final
path with `"_admin"` inserted before the extension.  For the reachable final
path computed from user-typed name `"A.LNK"` (accepted unchanged by
`get_shortcut_path`, whose `.lnk` suffix test is case-insensitive), the
code's temporary path `shortcut_path[:-4] + "_admin.lnk"` lowercases the
extension, so it differs from the claim's path. -/
theorem C1_cex_upper_extension :
    pySliceToNeg4 spUpperC1 ++ "_admin.lnk"
        = "C:\\U\\Microsoft\\Windows\\Start Menu\\Programs\\A_admin.lnk" ∧
    claimTempPath spUpperC1
        = "C:\\U\\Microsoft\\Windows\\Start Menu\\Programs\\A_admin.LNK" ∧
    pySliceToNeg4 spUpperC1 ++ "_admin.lnk" ≠ claimTempPath spUpperC1 := by decide

/-- C1 (amended): for every elevated shortcut request in which the external
steps succeed and the OS-produced file is longer than `0x15` bytes, the
elevation patch follows exactly these steps: the shortcut is first saved
under a temporary path equal to the final path with its last four characters
removed and `"_admin.lnk"` appended (equivalently, `"_admin"` inserted
before the extension whenever the final path ends in lowercase `".lnk"`);
the full byte sequence of the temporary file is read; the byte at offset
`0x15` is ORed with `0x20`; the modified byte sequence is written to the
final destination path; and the temporary file is deleted.  The step
sequence is the definition `runPatchScript`; proved here is the net effect:
the run raises nothing, the final path holds the OS-produced file with byte
`0x15` ORed by `0x20` and the other bytes unchanged, and nothing remains at
the temporary path. -/
theorem C1_elevation_patch_steps (env : Env) (fs : FS) (exe sp : String)
    (hok : env.allOk) (hlen : 0x15 < env.osBytes.length) :
    (create_windows_shortcut env fs exe sp true).1 = .ok () ∧
    (create_windows_shortcut env fs exe sp true).2 sp =
      some { bytes := orAt15 env.osBytes, targetPath := exe,
             workingDirectory := ntDirname exe } ∧
    (create_windows_shortcut env fs exe sp true).2 (pySliceToNeg4 sp ++ "_admin.lnk")
      = none := by
  obtain ⟨hr1, hr2, hr3⟩ := cws_success env fs exe sp true hok hlen
  exact ⟨hr1, by simpa [mkLnkFile] using hr2, hr3 rfl⟩

theorem C1_elevation_patch_steps_witness :
    (create_windows_shortcut envAllOk fsEmpty "C:\\T\\a.exe" "C:\\P\\B.lnk" true).1
      = .ok () ∧
    (create_windows_shortcut envAllOk fsEmpty "C:\\T\\a.exe" "C:\\P\\B.lnk" true).2
        "C:\\P\\B.lnk" =
      some { bytes := orAt15 envAllOk.osBytes, targetPath := "C:\\T\\a.exe",
             workingDirectory := ntDirname "C:\\T\\a.exe" } ∧
    (create_windows_shortcut envAllOk fsEmpty "C:\\T\\a.exe" "C:\\P\\B.lnk" true).2
        (pySliceToNeg4 "C:\\P\\B.lnk" ++ "_admin.lnk") = none :=
  C1_elevation_patch_steps envAllOk fsEmpty "C:\\T\\a.exe" "C:\\P\\B.lnk"
    (by decide) (by decide)

/-- C2: for every shortcut creation in which the external steps succeed and
the OS-produced file is longer than `0x15` bytes: with `elevate` true the
final file's byte at offset `0x15` has bit `0x20` (bit index 5) set; with
`elevate` false the final file is exactly the file produced by the OS
shortcut API, no bytes modified. -/
theorem C2_elevation_flag_invariant (env : Env) (fs : FS) (exe sp : String)
    (admin : Bool) (hok : env.allOk) (hlen : 0x15 < env.osBytes.length) :
    ∃ f : LnkFile,
      (create_windows_shortcut env fs exe sp admin).2 sp = some f ∧
      (admin = true → Nat.testBit (f.bytes.getD 0x15 0) 5 = true) ∧
      (admin = false → f = mkLnkFile env exe) := by
  obtain ⟨-, hr2, -⟩ := cws_success env fs exe sp admin hok hlen
  refine ⟨_, hr2, ?_, ?_⟩ <;> intro ha <;> subst ha
  · simp only [if_true, orAt15]
    rw [getD_set_self _ _ _ hlen]
    exact testBit5_or_0x20 _
  · simp

theorem C2_elevation_flag_invariant_witness :
    ∃ f : LnkFile,
      (create_windows_shortcut envAllOk fsEmpty "C:\\T\\a.exe" "C:\\P\\B.lnk" true).2
          "C:\\P\\B.lnk" = some f ∧
      (true = true → Nat.testBit (f.bytes.getD 0x15 0) 5 = true) ∧
      (true = false → f = mkLnkFile envAllOk "C:\\T\\a.exe") :=
  C2_elevation_flag_invariant envAllOk fsEmpty "C:\\T\\a.exe" "C:\\P\\B.lnk" true
    (by decide) (by decide)

/-- C3: the claim (cleanup of the temporary file is attempted on every exit
path, so no elevated run leaves the temporary `_admin` file behind) states
the spec's requirement, and the code violates it: the only deletion of the
temporary file is the last statement of the PowerShell script, and the
Python code has no `try`/`finally` around the flow, so when the `powershell`
child process cannot be started (`subprocess.run` raises `OSError`) — or
when any script statement before `Remove-Item` fails — the temporary file
saved at `shortcut_path[:-4] + "_admin.lnk"` remains on disk.  Evaluation of
the code at such a failing input: the run raises, and the temporary file is
still present afterwards with the OS-produced content. -/
theorem C3_temp_file_orphaned :
    (create_windows_shortcut envLaunchFails fsEmpty "C:\\T\\app.exe" "C:\\P\\App.lnk"
        true).1 = .error (.osError "powershell not found") ∧
    (create_windows_shortcut envLaunchFails fsEmpty "C:\\T\\app.exe" "C:\\P\\App.lnk"
        true).2 "C:\\P\\App_admin.lnk"
      = some (mkLnkFile envLaunchFails "C:\\T\\app.exe") := by decide

/-- C4: for every shortcut produced by the system (elevated or not, external
steps succeeding, OS-produced file longer than `0x15` bytes), the final
file's working-directory field equals `os.path.dirname` of the source
executable path — its parent directory — and its target field equals the
source executable path. -/
theorem C4_target_and_workdir (env : Env) (fs : FS) (exe sp : String) (admin : Bool)
    (hok : env.allOk) (hlen : 0x15 < env.osBytes.length) :
    ∃ f : LnkFile,
      (create_windows_shortcut env fs exe sp admin).2 sp = some f ∧
      f.targetPath = exe ∧ f.workingDirectory = ntDirname exe := by
  obtain ⟨-, hr2, -⟩ := cws_success env fs exe sp admin hok hlen
  refine ⟨_, hr2, ?_, ?_⟩ <;> cases admin <;> simp [mkLnkFile]

theorem C4_target_and_workdir_witness :
    ∃ f : LnkFile,
      (create_windows_shortcut envAllOk fsEmpty "C:\\Tools\\app.exe" "C:\\P\\App.lnk"
          false).2 "C:\\P\\App.lnk" = some f ∧
      f.targetPath = "C:\\Tools\\app.exe" ∧
      f.workingDirectory = ntDirname "C:\\Tools\\app.exe" :=
  C4_target_and_workdir envAllOk fsEmpty "C:\\Tools\\app.exe" "C:\\P\\App.lnk" false
    (by decide) (by decide)

/-- C5, counterexample: the claim says the name is truncated at the FIRST
occurrence of `'v'`; the code (`name.rsplit('v', 1)[0].strip()`) truncates
at the LAST occurrence.  On `"a_v1_v2.exe"` the code yields `"a v1"` while
the claim's described function yields `"a"`. -/
theorem C5_cex_first_vs_last_v :
    clean_default_name "a_v1_v2.exe" = "a v1" ∧
    defaultNameClaimC5 "a_v1_v2.exe" = "a" ∧
    clean_default_name "a_v1_v2.exe" ≠ defaultNameClaimC5 "a_v1_v2.exe" := by decide

/-- C5 (amended): `defaultName` strips the file extension, replaces every
`'_'`, `'-'`, `'.'` with a space (this preprocessing is `preprocessName`),
and then truncates at the LAST occurrence of lowercase `'v'` when one is
present — returning the whitespace-stripped prefix before that last `'v'` —
while with no `'v'` present it returns the whitespace-stripped preprocessed
name (the final `strip` applies in both cases). -/
theorem C5_truncate_last_v :
    (∀ (filename : String) (A B : List Char), 'v' ∉ B →
        (preprocessName filename).toList = A ++ 'v' :: B →
        clean_default_name filename = pyStrip A.asString) ∧
    (∀ filename : String, 'v' ∉ (preprocessName filename).toList →
        clean_default_name filename = pyStrip (preprocessName filename)) := by
  constructor
  · intro fn A B hB hs
    unfold clean_default_name
    rw [rsplitOnceHead_last 'v' _ A B hs hB]
  · intro fn h
    unfold clean_default_name rsplitOnceHead
    rw [if_neg h]

theorem C5_truncate_last_v_witness :
    clean_default_name "b_v1_v2.exe" = pyStrip ("b v1 ".toList).asString :=
  C5_truncate_last_v.1 "b_v1_v2.exe" ("b v1 ".toList) ("2".toList)
    (by decide) (by decide)

/-- C6, counterexample: the second pinned example fails on the code:
`"Service"` contains a `'v'`, so `clean_default_name "Service.exe"` is
`"Ser"`, not `"Service"`. -/
theorem C6_cex_service :
    clean_default_name "Service.exe" = "Ser" ∧ ("Ser" : String) ≠ "Service" := by decide

/-- C6 (amended): the pinned examples as the code actually computes them:
`defaultName("My-App_v2.exe") = "My App"` (truncation at the `'v'` of
`"v2"`) and `defaultName("Service.exe") = "Ser"` (truncated at the `'v'`
inside `"Service"`). -/
theorem C6_pinned_examples :
    clean_default_name "My-App_v2.exe" = "My App" ∧
    clean_default_name "Service.exe" = "Ser" := by decide

/-- C7: when the computed destination path collides with an existing file and
the user declines the overwrite confirmation, `create_shortcut` returns the
no-op result: the whole filesystem — in particular the existing file — is
returned unchanged, no file is written, and the result is the early return,
not an error (`overwriteDeclined` is distinct from every `errorShown`). -/
theorem C7_decline_overwrite_noop (env : Env) (fs : FS)
    (appData exe name : String) (admin : Bool)
    (hexists : (fs (get_shortcut_path (get_programs_folder appData) name)).isSome
      = true) :
    create_shortcut env fs appData exe name admin true = (.overwriteDeclined, fs) ∧
    (∀ t m, (CreateResult.overwriteDeclined : CreateResult) ≠ .errorShown t m) := by
  refine ⟨?_, fun t m h => by cases h⟩
  simp [create_shortcut, check_existing_shortcut, hexists]

theorem C7_decline_overwrite_noop_witness :
    create_shortcut envAllOk fsExistingApp "C:\\U" "C:\\T\\a.exe" "App" false true
      = (.overwriteDeclined, fsExistingApp) ∧
    (∀ t m, (CreateResult.overwriteDeclined : CreateResult) ≠ .errorShown t m) :=
  C7_decline_overwrite_noop envAllOk fsExistingApp "C:\\U" "C:\\T\\a.exe" "App" false
    (by decide)

/-- C8: when the source executable path does not exist on disk,
`process_dropped_file` shows the `File not found` error dialog (the spec's
`NotFound`) and stops: the filesystem is returned unchanged, so no file is
written. -/
theorem C8_notfound_no_write (env : Env) (fs : FS) (appData exe : String)
    (d : DialogInput) (userSaysNo : Bool) (h : fs exe = none) :
    process_dropped_file env fs appData exe d userSaysNo =
      (.errorDialog "File not found" "The selected file doesn't exist.", fs) := by
  simp [process_dropped_file, h]

theorem C8_notfound_no_write_witness :
    process_dropped_file envAllOk fsEmpty "C:\\U" "C:\\missing.exe" dlgCreateFoo false =
      (.errorDialog "File not found" "The selected file doesn't exist.", fsEmpty) :=
  C8_notfound_no_write envAllOk fsEmpty "C:\\U" "C:\\missing.exe" dlgCreateFoo false rfl

/-- C9: the elevation-patch process is run synchronously
(`subprocess.run`, which blocks, sequenced inside `create_windows_shortcut`)
with `check=True`, so its exit status is checked: whenever that process
exits with a non-zero status, the operation raises
`subprocess.CalledProcessError` (the spec's `PatchFailed`) — an exception
distinct by type from the COM error behind `CreationFailed` and from the
`OSError` of a failed launch; the `NotFound` case is the separate early
`File not found` dialog of `process_dropped_file` and raises nothing. -/
theorem C9_nonzero_exit_patchfailed (env : Env) (fs : FS) (exe sp : String)
    (hsave : env.saveFails = false) (hlaunch : env.launchFails = false)
    (hcode : patchExitCode env fs exe sp ≠ 0) :
    (create_windows_shortcut env fs exe sp true).1
      = .error (.calledProcessError (patchExitCode env fs exe sp)) ∧
    (∀ m, PyExn.calledProcessError (patchExitCode env fs exe sp) ≠ .comError m) ∧
    (∀ m, PyExn.calledProcessError (patchExitCode env fs exe sp) ≠ .osError m) := by
  refine ⟨?_, fun m h => PyExn.noConfusion h, fun m h => PyExn.noConfusion h⟩
  have hc : (runPatchScript env
      (fsWrite fs (pySliceToNeg4 sp ++ "_admin.lnk") (mkLnkFile env exe))
      (pySliceToNeg4 sp ++ "_admin.lnk") sp).2 ≠ 0 := hcode
  simp [create_windows_shortcut, hsave, hlaunch, patchExitCode, hc]

theorem C9_nonzero_exit_patchfailed_witness :
    patchExitCode envWriteFails fsEmpty "C:\\T\\a.exe" "C:\\P\\B.lnk" ≠ 0 ∧
    (create_windows_shortcut envWriteFails fsEmpty "C:\\T\\a.exe" "C:\\P\\B.lnk" true).1
      = .error (.calledProcessError
          (patchExitCode envWriteFails fsEmpty "C:\\T\\a.exe" "C:\\P\\B.lnk")) :=
  ⟨by decide,
    (C9_nonzero_exit_patchfailed envWriteFails fsEmpty "C:\\T\\a.exe" "C:\\P\\B.lnk"
      (by decide) (by decide) (by decide)).1⟩

/-- C10: when the dialog is accepted with a display name that strips to the
empty string, `prompt_shortcut_options` does nothing: no shortcut is
created, the filesystem is returned unchanged, and the result is `idle` —
no error dialog. -/
theorem C10_blank_name_noop (env : Env) (fs : FS) (appData exe : String)
    (d : DialogInput) (userSaysNo : Bool)
    (hacc : d.accepted = true) (hblank : get_shortcut_name d = "") :
    prompt_shortcut_options env fs appData exe d userSaysNo = (.idle, fs) := by
  simp [prompt_shortcut_options, hacc, hblank]

theorem C10_blank_name_noop_witness :
    prompt_shortcut_options envAllOk fsEmpty "C:\\U" "C:\\T\\a.exe" dlgBlankName false
      = (.idle, fsEmpty) :=
  C10_blank_name_noop envAllOk fsEmpty "C:\\U" "C:\\T\\a.exe" dlgBlankName false
    rfl (by decide)

end ShortcutCreator
